import Mathlib

/-!
Verification of the `junction` message middleware
(`lib/junction/middleware/message.js`).

The middleware classifies XMPP message stanzas and dispatches them, via a
Node-style event emitter, to listeners registered by a user-supplied setup
callback.  We embed the stanza model (the subset of the ltx `Element` API the
middleware uses: `is`, `attr`, `getChild`), the emitter (an ordered list of
`(event, listener)` pairs, with Node's synchronous `emit` semantics, including
the propagation of a listener-thrown exception and the special treatment of an
unhandled `error` event), and the middleware itself.
-/

namespace Junction

/-- A structured XML element: name, attributes, child elements.  This is the
stanza model the middleware consumes (`ltx`-style `Element`). -/
inductive XMLElement : Type where
  | elem (name : String) (attrs : List (String × String)) (children : List XMLElement)

/-- Root element name. -/
def XMLElement.name : XMLElement → String
  | .elem n _ _ => n

/-- Attribute list. -/
def XMLElement.attrs : XMLElement → List (String × String)
  | .elem _ a _ => a

/-- Child elements. -/
def XMLElement.children : XMLElement → List XMLElement
  | .elem _ _ c => c

/-- `stanza.is(name)`: does the root element have this name? -/
def XMLElement.is (s : XMLElement) (n : String) : Bool :=
  s.name == n

/-- `stanza.attr(name)`: the attribute's value, or `undefined` (`none`) when
the attribute is absent. -/
def XMLElement.attr (s : XMLElement) (a : String) : Option String :=
  (s.attrs.find? (fun p => p.1 == a)).map (fun p => p.2)

/-- `stanza.getChild(name)`: the first child element with this name, if any. -/
def XMLElement.getChild (s : XMLElement) (n : String) : Option XMLElement :=
  s.children.find? (fun c => c.name == n)

/-- JavaScript truthiness of a `string | undefined` value: `undefined` and the
empty string are falsy, every other string is truthy.  This is the semantics of
the source's `!stanza.attr('type')` test. -/
def jsTruthyStr : Option String → Bool
  | none => false
  | some s => !(s == "")

/-- A listener attached to the handler.  `id` identifies it (so invocation
order is observable); `throws` models a callback that raises an exception when
invoked. -/
structure Subscriber where
  id : Nat
  throws : Bool
deriving DecidableEq, Repr

/-- The `Handler` (an `EventEmitter`): listeners in registration order, each
tagged with the event name it was registered for. -/
structure Handler where
  listeners : List (String × Subscriber)
deriving DecidableEq, Repr

/-- `handler.on(event, listener)`: append the listener (Node's `on` preserves
registration order). -/
def Handler.on (h : Handler) (ev : String) (s : Subscriber) : Handler :=
  ⟨h.listeners ++ [(ev, s)]⟩

/-- The listeners registered for an event, in registration order. -/
def Handler.listenersFor (h : Handler) (ev : String) : List Subscriber :=
  (h.listeners.filter (fun p => p.1 == ev)).map (fun p => p.2)

/-- Run a listener list synchronously: return the ids invoked, in order, and
whether an exception escaped.  A throwing listener stops the iteration and the
exception propagates (Node's `emit` does not catch listener exceptions). -/
def emitList : List Subscriber → List Nat × Bool
  | [] => ([], false)
  | s :: rest =>
    if s.throws then ([s.id], true)
    else
      let r := emitList rest
      (s.id :: r.1, r.2)

/-- `handler.emit(event, stanza)`: invoke the event's listeners in order.
When the event is `error` and no listener is attached, Node throws (default
fatal action for an unhandled `error` event); this is the behaviour the
middleware's `err` renaming works around. -/
def Handler.emit (h : Handler) (ev : String) : List Nat × Bool :=
  let subs := h.listenersFor ev
  if ev == "error" && subs.isEmpty then ([], true)
  else emitList subs

/-- The event name `Handler.prototype._handle` emits for a stanza: the
resolved classification category.  Mirrors the source's if/else chain:
`composing` child, `paused` child, falsy `type` attribute, `type == 'error'`,
else the literal `type` value (in that branch the attribute is necessarily a
truthy string, so the default of `getD` is never used). -/
def resolvedCategory (stanza : XMLElement) : String :=
  if (stanza.getChild "composing").isSome then "composing"
  else if (stanza.getChild "paused").isSome then "paused"
  else if !(jsTruthyStr (stanza.attr "type")) then "normal"
  else if stanza.attr "type" == some "error" then "err"
  else (stanza.attr "type").getD ""

/-- `Handler.prototype._handle(stanza)`: classify and emit.  Returns the ids
of the listeners invoked, in order, and whether a listener exception escaped. -/
def Handler.handleStanza (h : Handler) (stanza : XMLElement) : List Nat × Bool :=
  if (stanza.getChild "composing").isSome then h.emit "composing"
  else if (stanza.getChild "paused").isSome then h.emit "paused"
  else if !(jsTruthyStr (stanza.attr "type")) then h.emit "normal"
  else if stanza.attr "type" == some "error" then h.emit "err"
  else h.emit ((stanza.attr "type").getD "")

/-- Observable outcome of one invocation of the middleware function on a
stanza: which listeners ran (in order), how many times `next()` was called,
and whether an exception propagated to the middleware's caller. -/
structure MiddlewareResult where
  invoked : List Nat
  nextCalls : Nat
  threw : Bool
deriving DecidableEq, Repr

/-- The middleware closure returned by `message`:
`if (!stanza.is('message')) return next(); handler._handle(stanza); next();`.
If `_handle` throws (a listener raised), the exception propagates before
`next()` runs. -/
def messageMiddleware (h : Handler) (stanza : XMLElement) : MiddlewareResult :=
  if !(stanza.is "message") then ⟨[], 1, false⟩
  else
    let r := h.handleStanza stanza
    if r.2 then ⟨r.1, 0, true⟩
    else ⟨r.1, 1, false⟩

/-- `module.exports = function message(fn)`: throws a configuration error when
no setup callback is supplied; otherwise constructs a fresh `Handler`, calls
`fn` on it once, and returns the middleware closure.  The setup callback is
modelled with an explicit state `σ` (its closure's side effects) alongside the
handler it mutates. -/
def message {σ : Type} (fn : Option (σ → Handler → σ × Handler)) (s : σ) :
    Except String (σ × (XMLElement → MiddlewareResult)) :=
  match fn with
  | none => Except.error "message middleware requires a callback function"
  | some f =>
    let r := f s ⟨[]⟩
    Except.ok (r.1, messageMiddleware r.2)

/-! Helper lemmas shared by the claim theorems. -/

/-- Classification never resolves to the event name `error`: the
`type == 'error'` branch renames it to `err` first, so the final free-form
branch only ever sees other values. -/
theorem resolvedCategory_ne_error (s : XMLElement) :
    resolvedCategory s ≠ "error" := by
  unfold resolvedCategory
  split_ifs with h1 h2 h3 h4
  · decide
  · decide
  · decide
  · decide
  · cases hta : s.attr "type" with
    | none => rw [hta] at h3; simp [jsTruthyStr] at h3
    | some t =>
      rw [hta] at h4
      simp only [Option.getD, hta]
      simp only [beq_iff_eq, Option.some.injEq] at h4
      exact fun he => h4 (by simpa using he)

/-- `_handle` is `emit` applied to the resolved category. -/
theorem handleStanza_eq_emit (h : Handler) (s : XMLElement) :
    h.handleStanza s = h.emit (resolvedCategory s) := by
  unfold Handler.handleStanza resolvedCategory
  split_ifs <;> rfl

/-- Running a list of non-throwing listeners invokes all of them, in order,
and no exception escapes. -/
theorem emitList_no_throw (l : List Subscriber)
    (h : ∀ s ∈ l, s.throws = false) :
    emitList l = (l.map Subscriber.id, false) := by
  induction l with
  | nil => rfl
  | cons a t ih =>
    have ha : a.throws = false := h a (List.mem_cons_self a t)
    have ht : ∀ s ∈ t, s.throws = false := fun s hs => h s (List.mem_cons_of_mem a hs)
    simp [emitList, ha, ih ht]

/-- A throwing listener stops the run: the non-throwing ones before it and the
thrower itself are invoked, nothing after it, and the exception escapes. -/
theorem emitList_throw (pre : List Subscriber) (t : Subscriber)
    (post : List Subscriber) (hpre : ∀ s ∈ pre, s.throws = false)
    (ht : t.throws = true) :
    emitList (pre ++ t :: post) = (pre.map Subscriber.id ++ [t.id], true) := by
  induction pre with
  | nil => simp [emitList, ht]
  | cons a rest ih =>
    have ha : a.throws = false := hpre a (List.mem_cons_self a rest)
    have hrest : ∀ s ∈ rest, s.throws = false :=
      fun s hs => hpre s (List.mem_cons_of_mem a hs)
    simp [emitList, ha, ih hrest]

/-- Registering a listener for an event appends it to that event's listener
list. -/
theorem listenersFor_on_same (h : Handler) (ev : String) (s : Subscriber) :
    (h.on ev s).listenersFor ev = h.listenersFor ev ++ [s] := by
  simp [Handler.on, Handler.listenersFor, List.filter_append]

/-- On a `message` stanza the middleware runs `_handle` and then calls
`next()` — unless a listener exception escaped first. -/
theorem messageMiddleware_eq (h : Handler) (s : XMLElement)
    (hmsg : s.is "message" = true) :
    messageMiddleware h s =
      if (h.handleStanza s).2 then ⟨(h.handleStanza s).1, 0, true⟩
      else ⟨(h.handleStanza s).1, 1, false⟩ := by
  unfold messageMiddleware
  rw [hmsg]
  rfl

/-- Emitting an event other than `error` runs exactly its listener list. -/
theorem emit_ne_error (h : Handler) (ev : String) (hne : ev ≠ "error") :
    h.emit ev = emitList (h.listenersFor ev) := by
  unfold Handler.emit
  simp [hne]

/-- A convenient case split: for a stanza with no `composing` or `paused`
child, the resolved category is determined by the `type` attribute. -/
theorem resolvedCategory_no_markers (s : XMLElement)
    (h1 : (s.getChild "composing").isSome = false)
    (h2 : (s.getChild "paused").isSome = false) :
    resolvedCategory s =
      match s.attr "type" with
      | none => "normal"
      | some t => if t = "" then "normal" else if t = "error" then "err" else t := by
  unfold resolvedCategory
  rw [h1, h2]
  cases hta : s.attr "type" with
  | none => simp [jsTruthyStr]
  | some t =>
    by_cases he : t = ""
    · simp [jsTruthyStr, he]
    · by_cases herr : t = "error"
      · simp [jsTruthyStr, he, herr]
      · simp [jsTruthyStr, he, herr]

/-- Claim C1 (corrected): first-match-wins classification precedence, with the
`normal` rule amended to also cover a `type` attribute that is present but
equal to the empty string (the source tests JavaScript truthiness, under which
an empty attribute value behaves like an absent one); the free-form final rule
therefore only applies to non-empty values other than `error`. -/
theorem classification_precedence (stanza : XMLElement)
    (hmsg : stanza.is "message" = true) :
    ((stanza.getChild "composing").isSome = true →
      resolvedCategory stanza = "composing")
    ∧ ((stanza.getChild "composing").isSome = false →
        (stanza.getChild "paused").isSome = true →
        resolvedCategory stanza = "paused")
    ∧ ((stanza.getChild "composing").isSome = false →
        (stanza.getChild "paused").isSome = false →
        (stanza.attr "type" = none ∨ stanza.attr "type" = some "") →
        resolvedCategory stanza = "normal")
    ∧ ((stanza.getChild "composing").isSome = false →
        (stanza.getChild "paused").isSome = false →
        stanza.attr "type" = some "error" →
        resolvedCategory stanza = "err")
    ∧ (∀ t : String, (stanza.getChild "composing").isSome = false →
        (stanza.getChild "paused").isSome = false →
        stanza.attr "type" = some t → t ≠ "" → t ≠ "error" →
        resolvedCategory stanza = t) := by
  refine ⟨?_, ?_, ?_, ?_, ?_⟩
  · intro h1
    unfold resolvedCategory
    rw [h1]
    rfl
  · intro h1 h2
    unfold resolvedCategory
    rw [h1, h2]
    rfl
  · intro h1 h2 hty
    rw [resolvedCategory_no_markers stanza h1 h2]
    rcases hty with hn | he
    · rw [hn]
    · rw [he]
      simp
  · intro h1 h2 hty
    rw [resolvedCategory_no_markers stanza h1 h2, hty]
    simp
  · intro t h1 h2 hty hne hnerr
    rw [resolvedCategory_no_markers stanza h1 h2, hty]
    simp [hne, hnerr]

/-- Witness for C1: a plain chat stanza resolves, by the free-form rule, to
the literal value of its `type` attribute. -/
theorem classification_precedence_witness :
    resolvedCategory (XMLElement.elem "message" [("type", "chat")] []) = "chat" :=
  (classification_precedence (XMLElement.elem "message" [("type", "chat")] [])
    (by decide)).2.2.2.2 "chat" (by decide) (by decide) (by decide)
    (by decide) (by decide)

/-- Counterexample for C1 as stated: a `message` stanza with no marker child
and a `type` attribute that is present but empty.  The claim's rules make the
category the literal attribute value (the empty string); the code classifies
it as `normal`. -/
theorem classification_precedence_cex :
    (XMLElement.elem "message" [("type", "")] []).is "message" = true
    ∧ ((XMLElement.elem "message" [("type", "")] []).getChild "composing").isSome = false
    ∧ ((XMLElement.elem "message" [("type", "")] []).getChild "paused").isSome = false
    ∧ (XMLElement.elem "message" [("type", "")] []).attr "type" = some ""
    ∧ ("" : String) ≠ "error"
    ∧ resolvedCategory (XMLElement.elem "message" [("type", "")] []) = "normal"
    ∧ ("normal" : String) ≠ "" := by
  refine ⟨rfl, rfl, rfl, rfl, by decide, rfl, by decide⟩

/-- Claim C2: a stanza with `type="error"` and no `composing`/`paused` child
is classified as `err` — a category distinct from the raw protocol value
`error` — and its dispatch emits the `err` event. -/
theorem error_type_yields_err (stanza : XMLElement)
    (h1 : (stanza.getChild "composing").isSome = false)
    (h2 : (stanza.getChild "paused").isSome = false)
    (h3 : stanza.attr "type" = some "error") :
    resolvedCategory stanza = "err"
    ∧ resolvedCategory stanza ≠ "error"
    ∧ ∀ h : Handler, h.handleStanza stanza = h.emit "err" := by
  have hc : resolvedCategory stanza = "err" := by
    rw [resolvedCategory_no_markers stanza h1 h2, h3]
    simp
  refine ⟨hc, ?_, ?_⟩
  · rw [hc]; decide
  · intro h
    rw [handleStanza_eq_emit, hc]

/-- Witness for C2: a concrete error stanza. -/
theorem error_type_yields_err_witness :
    resolvedCategory (XMLElement.elem "message" [("type", "error")] []) = "err" :=
  (error_type_yields_err (XMLElement.elem "message" [("type", "error")] [])
    (by decide) (by decide) rfl).1

/-- Claim C8: classification is a pure function of the stanza's observable
fields — two stanzas agreeing on `composing`-child presence, `paused`-child
presence and the `type` attribute value resolve to the same category.  (The
embedding makes statelessness manifest: `handleStanza` consumes the handler
and the stanza and returns only the observation, never a modified handler.) -/
theorem classification_pure (s1 s2 : XMLElement)
    (hc : (s1.getChild "composing").isSome = (s2.getChild "composing").isSome)
    (hp : (s1.getChild "paused").isSome = (s2.getChild "paused").isSome)
    (ht : s1.attr "type" = s2.attr "type") :
    resolvedCategory s1 = resolvedCategory s2 := by
  unfold resolvedCategory
  rw [hc, hp, ht]

/-- Witness for C8: two distinct stanzas (different attribute order, different
extra children) with the same observable fields classify identically. -/
theorem classification_pure_witness :
    resolvedCategory (XMLElement.elem "message" [("type", "chat")] []) =
      resolvedCategory
        (XMLElement.elem "message" [("to", "a@b"), ("type", "chat")]
          [XMLElement.elem "body" [] []]) :=
  classification_pure _ _ rfl rfl rfl

/-- Claim C9: a `type` attribute that is present but equal to the empty string
is classified `normal`, exactly like an absent attribute — it is not forwarded
as a literal (empty) category name. -/
theorem empty_type_normal (stanza : XMLElement)
    (h1 : (stanza.getChild "composing").isSome = false)
    (h2 : (stanza.getChild "paused").isSome = false)
    (h3 : stanza.attr "type" = some "") :
    resolvedCategory stanza = "normal" ∧ ("normal" : String) ≠ "" := by
  refine ⟨?_, by decide⟩
  rw [resolvedCategory_no_markers stanza h1 h2, h3]
  simp

/-- Witness for C9. -/
theorem empty_type_normal_witness :
    resolvedCategory (XMLElement.elem "message" [("type", "")] [XMLElement.elem "body" [] []])
      = "normal" :=
  (empty_type_normal
    (XMLElement.elem "message" [("type", "")] [XMLElement.elem "body" [] []])
    (by decide) (by decide) rfl).1

/-- Claim C10: a stanza whose `type` attribute is the literal string `err`
falls through to the free-form rule and lands in the very category used for
genuine `type="error"` stanzas, so `err` subscribers cannot tell them apart. -/
theorem err_type_collision (s1 s2 : XMLElement)
    (h1 : (s1.getChild "composing").isSome = false)
    (h2 : (s1.getChild "paused").isSome = false)
    (h3 : s1.attr "type" = some "err")
    (h4 : (s2.getChild "composing").isSome = false)
    (h5 : (s2.getChild "paused").isSome = false)
    (h6 : s2.attr "type" = some "error") :
    resolvedCategory s1 = "err" ∧ resolvedCategory s1 = resolvedCategory s2 := by
  have ha : resolvedCategory s1 = "err" := by
    rw [resolvedCategory_no_markers s1 h1 h2, h3]
    simp
  have hb : resolvedCategory s2 = "err" := by
    rw [resolvedCategory_no_markers s2 h4 h5, h6]
    simp
  exact ⟨ha, ha.trans hb.symm⟩

/-- Witness for C10: concrete `type="err"` and `type="error"` stanzas. -/
theorem err_type_collision_witness :
    resolvedCategory (XMLElement.elem "message" [("type", "err")] []) =
      resolvedCategory (XMLElement.elem "message" [("type", "error")] []) :=
  (err_type_collision
    (XMLElement.elem "message" [("type", "err")] [])
    (XMLElement.elem "message" [("type", "error")] [])
    (by decide) (by decide) rfl (by decide) (by decide) rfl).2

/-- Claim C4: constructing the middleware without a setup callback fails with
the configuration error before anything else happens; with a callback, the
callback is applied exactly once, synchronously, to the freshly constructed
(empty) handler — witnessed in general by the construction result being one
application of `f`, and concretely by a call-counting callback ending at
count 1. -/
theorem construction_contract {σ : Type} (f : σ → Handler → σ × Handler) (s : σ) :
    message (σ := σ) none s
        = Except.error "message middleware requires a callback function"
    ∧ message (some f) s
        = Except.ok ((f s ⟨[]⟩).1, messageMiddleware (f s ⟨[]⟩).2)
    ∧ ∀ g : Handler → Handler,
        message (some (fun (n : Nat) h => (n + 1, g h))) 0
          = Except.ok (1, messageMiddleware (g ⟨[]⟩)) :=
  ⟨rfl, rfl, fun _ => rfl⟩

/-- Claim C5: a stanza whose root element is not `message` bypasses
classification: no listener of any category runs and `next()` is called
immediately, exactly once. -/
theorem non_message_passthrough (h : Handler) (stanza : XMLElement)
    (hk : stanza.is "message" = false) :
    messageMiddleware h stanza = ⟨[], 1, false⟩ := by
  unfold messageMiddleware
  rw [hk]
  rfl

/-- Witness for C5: a presence stanza passes straight through, even with a
listener registered for its would-be category. -/
theorem non_message_passthrough_witness :
    messageMiddleware ⟨[("chat", ⟨1, false⟩)]⟩
      (XMLElement.elem "presence" [("type", "chat")] []) = ⟨[], 1, false⟩ :=
  non_message_passthrough ⟨[("chat", ⟨1, false⟩)]⟩
    (XMLElement.elem "presence" [("type", "chat")] []) (by decide)

/-- Claim C7: when the resolved category has zero registered listeners —
including the `err` category — dispatch invokes nobody, raises nothing, and
`next()` is still called exactly once.  This relies on the category never
being the emitter-fatal name `error` (`resolvedCategory_ne_error`). -/
theorem zero_subscribers_silent (h : Handler) (stanza : XMLElement)
    (hmsg : stanza.is "message" = true)
    (hz : h.listenersFor (resolvedCategory stanza) = []) :
    messageMiddleware h stanza = ⟨[], 1, false⟩ := by
  have hrun : h.handleStanza stanza = ([], false) := by
    rw [handleStanza_eq_emit,
      emit_ne_error h _ (resolvedCategory_ne_error stanza), hz]
    rfl
  rw [messageMiddleware_eq h stanza hmsg, hrun]
  rfl

/-- Witness for C7: an error stanza dispatched to a handler with listeners
only for other categories is silently dropped. -/
theorem zero_subscribers_silent_witness :
    messageMiddleware ⟨[("chat", ⟨1, false⟩)]⟩
      (XMLElement.elem "message" [("type", "error")] []) = ⟨[], 1, false⟩ :=
  zero_subscribers_silent ⟨[("chat", ⟨1, false⟩)]⟩
    (XMLElement.elem "message" [("type", "error")] []) (by decide) (by decide)

/-- Claim C6: listeners of the resolved category run in registration order —
registering `A` then `B` for a category makes any stanza resolving to that
category invoke the earlier listeners, then `A`, then `B`. -/
theorem registration_order_preserved (e : Handler) (c : String)
    (A B : Subscriber) (stanza : XMLElement)
    (hmsg : stanza.is "message" = true)
    (hc : resolvedCategory stanza = c)
    (hnothrow : ∀ s ∈ ((e.on c A).on c B).listenersFor c, s.throws = false) :
    (messageMiddleware ((e.on c A).on c B) stanza).invoked
      = (e.listenersFor c).map Subscriber.id ++ [A.id, B.id] := by
  have hcne : c ≠ "error" := by
    rw [← hc]
    exact resolvedCategory_ne_error stanza
  have hl : ((e.on c A).on c B).listenersFor c = e.listenersFor c ++ [A, B] := by
    rw [listenersFor_on_same, listenersFor_on_same]
    simp
  have hrun : ((e.on c A).on c B).handleStanza stanza
      = ((((e.on c A).on c B).listenersFor c).map Subscriber.id, false) := by
    rw [handleStanza_eq_emit, hc, emit_ne_error _ _ hcne]
    exact emitList_no_throw _ hnothrow
  rw [messageMiddleware_eq _ stanza hmsg, hrun]
  simp [hl]

/-- Witness for C6: listener 1 then listener 2 registered for `chat`, after an
unrelated `normal` listener; a chat stanza invokes 1 before 2. -/
theorem registration_order_preserved_witness :
    (messageMiddleware
      (((⟨[("normal", ⟨9, false⟩)]⟩ : Handler).on "chat" ⟨1, false⟩).on "chat" ⟨2, false⟩)
      (XMLElement.elem "message" [("type", "chat")] [])).invoked = [1, 2] :=
  registration_order_preserved ⟨[("normal", ⟨9, false⟩)]⟩ "chat" ⟨1, false⟩ ⟨2, false⟩
    (XMLElement.elem "message" [("type", "chat")] []) (by decide) (by decide)
    (by decide)

/-- Counterexample for C3 as stated: listener 1 (registered first for `chat`)
throws; its sibling listener 2 is then never invoked, `next()` is never
called, and the exception propagates to the middleware's caller — the
opposite of each part of the claim. -/
theorem subscriber_throw_cex :
    messageMiddleware ⟨[("chat", ⟨1, true⟩), ("chat", ⟨2, false⟩)]⟩
      (XMLElement.elem "message" [("type", "chat")] []) = ⟨[1], 0, true⟩ := by
  decide

/-- Claim C3 (corrected): the classifier does not isolate listener errors.
When no listener of the resolved category throws, all of them run in order and
`next()` is called exactly once; but when one throws, the listeners after it
are skipped, `next()` is not called at all, and the error propagates to the
middleware's caller. -/
theorem subscriber_throw_semantics (h : Handler) (stanza : XMLElement)
    (hmsg : stanza.is "message" = true) :
    ((∀ s ∈ h.listenersFor (resolvedCategory stanza), s.throws = false) →
      messageMiddleware h stanza
        = ⟨(h.listenersFor (resolvedCategory stanza)).map Subscriber.id, 1, false⟩)
    ∧ (∀ (pre : List Subscriber) (t : Subscriber) (post : List Subscriber),
        h.listenersFor (resolvedCategory stanza) = pre ++ t :: post →
        (∀ s ∈ pre, s.throws = false) → t.throws = true →
        messageMiddleware h stanza
          = ⟨pre.map Subscriber.id ++ [t.id], 0, true⟩) := by
  constructor
  · intro hnothrow
    have hrun : h.handleStanza stanza
        = ((h.listenersFor (resolvedCategory stanza)).map Subscriber.id, false) := by
      rw [handleStanza_eq_emit,
        emit_ne_error h _ (resolvedCategory_ne_error stanza)]
      exact emitList_no_throw _ hnothrow
    rw [messageMiddleware_eq h stanza hmsg, hrun]
    rfl
  · intro pre t post hsplit hpre ht
    have hrun : h.handleStanza stanza
        = (pre.map Subscriber.id ++ [t.id], true) := by
      rw [handleStanza_eq_emit,
        emit_ne_error h _ (resolvedCategory_ne_error stanza), hsplit]
      exact emitList_throw pre t post hpre ht
    rw [messageMiddleware_eq h stanza hmsg, hrun]
    rfl

/-- Witness for C3's corrected theorem: with listeners 1 (throws) and 2 for
`chat`, a chat stanza yields invocation of 1 only, zero `next()` calls, and a
propagated exception. -/
theorem subscriber_throw_semantics_witness :
    messageMiddleware ⟨[("chat", ⟨3, true⟩), ("chat", ⟨4, false⟩)]⟩
      (XMLElement.elem "message" [("to", "x"), ("type", "chat")] []) = ⟨[3], 0, true⟩ :=
  (subscriber_throw_semantics ⟨[("chat", ⟨3, true⟩), ("chat", ⟨4, false⟩)]⟩
    (XMLElement.elem "message" [("to", "x"), ("type", "chat")] [])
    (by decide)).2 [] ⟨3, true⟩ [⟨4, false⟩] (by decide)
    (by intro s hs; cases hs) rfl

end Junction
